import Mathlib

/-!
Verification of the power-law fit engine and the collateralized-borrowing
simulation engine of the btc-powerlaw-dashboard repository.

JavaScript `Date` values are modelled as whole days since the Unix epoch:
every date the core constructs or compares is a UTC midnight, so the
millisecond clock value is a whole multiple of 86400000 and the day count
is a faithful representation.  Calendar conversion uses the standard civil
calendar algorithms over `Int`.  JavaScript floating point numbers are
modelled as real numbers (`Math.log`, `Math.exp`, `Math.sqrt`, `Math.pow`
become `Real.log`, `Real.exp`, `Real.sqrt`, `Real.rpow`).
-/

namespace BtcDash

/-! ## Calendar arithmetic -/

/-- Days since 1970-01-01 of the civil date y-m-d (m is 1-based), the
standard days-from-civil algorithm, valid for all integer years. -/
def daysFromCivil (y m d : ℤ) : ℤ :=
  let y2 := if m ≤ 2 then y - 1 else y
  let era := Int.fdiv y2 400
  let yoe := y2 - era * 400
  let mp := if 2 < m then m - 3 else m + 9
  let doy := (153 * mp + 2) / 5 + d - 1
  let doe := yoe * 365 + yoe / 4 - yoe / 100 + doy
  era * 146097 + doe - 719468

/-- Civil date (year, month 1-based, day) of a days-since-epoch value,
the standard civil-from-days algorithm. -/
def civilFromDays (t : ℤ) : ℤ × ℤ × ℤ :=
  let z := t + 719468
  let era := Int.fdiv z 146097
  let doe := z - era * 146097
  let yoe := (doe - doe / 1460 + doe / 36524 - doe / 146096) / 365
  let y := yoe + era * 400
  let doy := doe - (365 * yoe + yoe / 4 - yoe / 100)
  let mp := (5 * doy + 2) / 153
  let d := doy - (153 * mp + 2) / 5 + 1
  let m := if mp < 10 then mp + 3 else mp - 9
  (if m ≤ 2 then y + 1 else y, m, d)

/-- JavaScript `date.getUTCFullYear()`. -/
def yearOfDate (t : ℤ) : ℤ := (civilFromDays t).1

/-- JavaScript `date.getUTCMonth()` (0-based month index). -/
def monthIndexOfDate (t : ℤ) : ℤ := (civilFromDays t).2.1 - 1

/-- JavaScript `new Date(Date.UTC(y, m, 1))` where `m` is a 0-based month
index that may lie outside 0..11; JS normalizes it by carrying whole years
(floor division). -/
def dateUTC (y m : ℤ) : ℤ :=
  daysFromCivil (y + Int.fdiv m 12) (Int.emod m 12 + 1) 1

/-- Source constant `BITCOIN_GENESIS_DATE`, 2009-01-03T00:00:00Z, as a day number. -/
def genesisDay : ℤ := daysFromCivil 2009 1 3

/-- Source function `daysSinceGenesis(date)`: floor of the millisecond difference divided by
86400000; exact day subtraction for the UTC-midnight dates the core uses. -/
def daysSinceGenesis (t : ℤ) : ℤ := t - genesisDay

/-! ## Fit engine (src/lib/powerlaw.ts) -/

structure PriceDataPoint where
  date : ℤ
  timestamp : ℤ
  price : ℝ
  daysSinceGenesis : ℤ

structure PowerLawFit where
  A : ℝ
  B : ℝ
  rSquared : ℝ
  sigma : ℝ

/-- The filter at the top of `fitPowerLaw`: keep points with price > 0 and
daysSinceGenesis > 0. -/
noncomputable def validFitData (data : List PriceDataPoint) : List PriceDataPoint :=
  data.filter fun d => decide (0 < d.price ∧ 0 < d.daysSinceGenesis)

/-- Source function `fitPowerLaw(data)`: ordinary least squares in log-log space; returns the
zero fit when fewer than 2 valid points remain. -/
noncomputable def fitPowerLaw (data : List PriceDataPoint) : PowerLawFit :=
  let validData := validFitData data
  if validData.length < 2 then { A := 0, B := 0, rSquared := 0, sigma := 0 }
  else
    let n : ℝ := validData.length
    let logT := validData.map fun d => Real.log (d.daysSinceGenesis : ℝ)
    let logP := validData.map fun d => Real.log d.price
    let meanLogT := logT.sum / n
    let meanLogP := logP.sum / n
    let numerator := ((logT.zip logP).map fun q => (q.1 - meanLogT) * (q.2 - meanLogP)).sum
    let denominator := (logT.map fun x => (x - meanLogT) ^ 2).sum
    let B := numerator / denominator
    let logA := meanLogP - B * meanLogT
    let A := Real.exp logA
    let predictedLogP := logT.map fun lt => logA + B * lt
    let residuals := (logP.zip predictedLogP).map fun q => q.1 - q.2
    let ssRes := (residuals.map fun r => r ^ 2).sum
    let ssTot := (logP.map fun lp => (lp - meanLogP) ^ 2).sum
    let rSquared := 1 - ssRes / ssTot
    let meanResidual := residuals.sum / n
    let variance := (residuals.map fun r => (r - meanResidual) ^ 2).sum / (n - 1)
    { A := A, B := B, rSquared := rSquared, sigma := Real.sqrt variance }

/-- Source function `powerLawPrice(daysSinceGenesis, fit) = fit.A * Math.pow(daysSinceGenesis, fit.B)`.
There is no guard on the sign of the age argument in the source. -/
noncomputable def powerLawPrice (days : ℝ) (fit : PowerLawFit) : ℝ :=
  fit.A * days ^ fit.B

/-- Source function `calculateDeviation(actual, fitted)`. -/
noncomputable def calculateDeviation (actualPrice fittedPrice : ℝ) : ℝ :=
  if fittedPrice = 0 then 0 else (actualPrice - fittedPrice) / fittedPrice * 100

/-- Source function `calculateSigmaDeviation(actual, fitted, sigma)`. -/
noncomputable def calculateSigmaDeviation (actualPrice fittedPrice sigma : ℝ) : ℝ :=
  if fittedPrice ≤ 0 ∨ sigma = 0 then 0
  else (Real.log actualPrice - Real.log fittedPrice) / sigma

structure FittedDataPoint extends PriceDataPoint where
  fittedPrice : ℝ
  deviationPercent : ℝ
  sigmaDeviation : ℝ
  logResidual : ℝ
  band1SigmaUpper : ℝ
  band1SigmaLower : ℝ
  band2SigmaUpper : ℝ
  band2SigmaLower : ℝ

instance : Inhabited FittedDataPoint :=
  ⟨⟨⟨0, 0, 0, 0⟩, 0, 0, 0, 0, 0, 0, 0, 0⟩⟩

/-- Source function `applyFitToData(data, fit)`: annotate every point with model price,
deviations, log residual, and the four sigma bands (the source binds the
model price to a local `fittedPrice` constant; it is inlined here). -/
noncomputable def applyFitToData (data : List PriceDataPoint) (fit : PowerLawFit) :
    List FittedDataPoint :=
  data.map fun d =>
    { toPriceDataPoint := d
      fittedPrice := powerLawPrice (d.daysSinceGenesis : ℝ) fit
      deviationPercent := calculateDeviation d.price (powerLawPrice (d.daysSinceGenesis : ℝ) fit)
      sigmaDeviation :=
        calculateSigmaDeviation d.price (powerLawPrice (d.daysSinceGenesis : ℝ) fit) fit.sigma
      logResidual :=
        if 0 < d.price ∧ 0 < powerLawPrice (d.daysSinceGenesis : ℝ) fit then
          Real.log d.price - Real.log (powerLawPrice (d.daysSinceGenesis : ℝ) fit)
        else 0
      band1SigmaUpper := powerLawPrice (d.daysSinceGenesis : ℝ) fit * Real.exp fit.sigma
      band1SigmaLower := powerLawPrice (d.daysSinceGenesis : ℝ) fit * Real.exp (-fit.sigma)
      band2SigmaUpper := powerLawPrice (d.daysSinceGenesis : ℝ) fit * Real.exp (2 * fit.sigma)
      band2SigmaLower :=
        powerLawPrice (d.daysSinceGenesis : ℝ) fit * Real.exp (-(2 * fit.sigma)) }

/-! ## BBD simulator (src/lib/bbd-simulator.ts) -/

inductive PriceScenario
  | fair
  | plus1sigma
  | plus2sigma
  | minus1sigma
  | minus2sigma
deriving DecidableEq

inductive InterestMode
  | capitalize
  | pay_monthly
deriving DecidableEq

inductive BorrowFrequency
  | monthly
  | yearly
deriving DecidableEq

/-- Source type `BBDSimulatorConfig`.  The source `startDate` field is a YYYY-MM string
used only by the UI; it is modelled as the (year, month) pair it denotes and
is never read by the engine. -/
structure BBDSimulatorConfig where
  btcHeld : ℝ
  monthlySpendingUsd : ℝ
  interestAprPercent : ℝ
  liquidationLtvPercent : ℝ
  startingLtvPercent : Option ℝ
  borrowMonthly : Bool
  borrowFrequency : BorrowFrequency
  interestMode : InterestMode
  projectionYears : ℕ
  scenario : PriceScenario
  startDate : ℤ × ℤ

/-- Source function `getScenarioPrice(date, fit, scenario)`. -/
noncomputable def getScenarioPrice (date : ℤ) (fit : PowerLawFit)
    (scenario : PriceScenario) : ℝ :=
  let days := daysSinceGenesis date
  let fittedPrice := powerLawPrice (days : ℝ) fit
  match scenario with
  | .fair => fittedPrice
  | .plus1sigma => fittedPrice * Real.exp fit.sigma
  | .plus2sigma => fittedPrice * Real.exp (2 * fit.sigma)
  | .minus1sigma => fittedPrice * Real.exp (-fit.sigma)
  | .minus2sigma => fittedPrice * Real.exp (-(2 * fit.sigma))

/-- One entry of a generated price path. -/
structure PathPoint where
  date : ℤ
  price : ℝ
  isProjection : Bool

instance : Inhabited PathPoint := ⟨⟨0, 0, true⟩⟩

/-- Source function `generatePricePath(startDate, projectionYears, fit, scenario)`: one point
per month from month 0 through `projectionYears * 12`, each dated on the
first of its month. -/
noncomputable def generatePricePath (startDate : ℤ) (projectionYears : ℕ)
    (fit : PowerLawFit) (scenario : PriceScenario) : List PathPoint :=
  let totalMonths := projectionYears * 12
  (List.range (totalMonths + 1)).map fun (month : ℕ) =>
    let date := dateUTC (yearOfDate startDate) (monthIndexOfDate startDate + (month : ℤ))
    { date := date, price := getScenarioPrice date fit scenario, isProjection := true }

structure HistoricalPricePoint where
  date : ℤ
  price : ℝ

/-- The YYYY-MM key the source builds for the historical map (year and
1-based month). -/
def histKey (t : ℤ) : ℤ × ℤ := (yearOfDate t, monthIndexOfDate t + 1)

/-- Lookup in the per-month historical map: the last inserted price for the
key wins, exactly as repeated `Map.set` during construction. -/
def histMapGet (data : List HistoricalPricePoint) (key : ℤ × ℤ) : Option ℝ :=
  ((data.filter fun p => histKey p.date = key).getLast?).map HistoricalPricePoint.price

/-- Source function `generateMixedPricePath(startDate, projectionYears, fit, scenario,
historicalData)`.  The source reads the wall clock (`new Date()`); that read
is modelled by the explicit `today` argument. -/
noncomputable def generateMixedPricePath (startDate : ℤ) (projectionYears : ℕ)
    (fit : PowerLawFit) (scenario : PriceScenario)
    (historicalData : List HistoricalPricePoint) (today : ℤ) : List PathPoint :=
  let totalMonths := projectionYears * 12
  let todayMonth := dateUTC (yearOfDate today) (monthIndexOfDate today)
  (List.range (totalMonths + 1)).map fun (month : ℕ) =>
    let date := dateUTC (yearOfDate startDate) (monthIndexOfDate startDate + (month : ℤ))
    match histMapGet historicalData (histKey date) with
    | some historicalPrice =>
      if date ≤ todayMonth then { date := date, price := historicalPrice, isProjection := false }
      else { date := date, price := getScenarioPrice date fit scenario, isProjection := true }
    | none => { date := date, price := getScenarioPrice date fit scenario, isProjection := true }

structure BBDMonthlyStep where
  month : ℕ
  year : ℕ
  date : ℤ
  btcPrice : ℝ
  collateralValue : ℝ
  loanBalance : ℝ
  ltv : ℝ
  netEquity : ℝ
  interestPaidThisMonth : ℝ
  borrowedThisMonth : ℝ
  isLiquidated : Bool
  isProjection : Bool

instance : Inhabited BBDMonthlyStep :=
  ⟨⟨0, 0, 0, 0, 0, 0, 0, 0, 0, 0, false, true⟩⟩

/-- The mutable loop variables of `runBBDSimulation`. -/
structure SimLoopState where
  loanBalance : ℝ
  totalInterestPaid : ℝ
  totalBorrowed : ℝ
  isLiquidated : Bool
  liquidationMonth : Option ℕ

/-- The borrow block of the loop body: new loan balance, amount borrowed
this month, new total borrowed. -/
noncomputable def borrowStep (cfg : BBDSimulatorConfig) (i : ℕ)
    (loanBalance totalBorrowed : ℝ) : ℝ × ℝ × ℝ :=
  if cfg.borrowMonthly = true ∧ 0 < i then
    match cfg.borrowFrequency with
    | .monthly =>
      (loanBalance + cfg.monthlySpendingUsd, cfg.monthlySpendingUsd,
        totalBorrowed + cfg.monthlySpendingUsd)
    | .yearly =>
      if i % 12 = 0 then
        (loanBalance + cfg.monthlySpendingUsd * 12, cfg.monthlySpendingUsd * 12,
          totalBorrowed + cfg.monthlySpendingUsd * 12)
      else (loanBalance, 0, totalBorrowed)
  else (loanBalance, 0, totalBorrowed)

/-- The interest block of the loop body: new loan balance, interest paid this
month, new total interest paid.  No interest in month 0. -/
noncomputable def interestStep (cfg : BBDSimulatorConfig) (monthlyInterestRate : ℝ)
    (i : ℕ) (loanBalance totalInterestPaid : ℝ) : ℝ × ℝ × ℝ :=
  if 0 < i then
    match cfg.interestMode with
    | .capitalize => (loanBalance + loanBalance * monthlyInterestRate, 0, totalInterestPaid)
    | .pay_monthly =>
      (loanBalance, loanBalance * monthlyInterestRate,
        totalInterestPaid + loanBalance * monthlyInterestRate)
  else (loanBalance, 0, totalInterestPaid)

/-- One iteration of the simulation loop: the step pushed for month `i` and
the state afterwards. -/
noncomputable def simStep (cfg : BBDSimulatorConfig) (monthlyInterestRate liquidationLtv : ℝ)
    (i : ℕ) (p : PathPoint) (st : SimLoopState) : BBDMonthlyStep × SimLoopState :=
  let collateralValue := cfg.btcHeld * p.price
  let b := borrowStep cfg i st.loanBalance st.totalBorrowed
  let a := interestStep cfg monthlyInterestRate i b.1 st.totalInterestPaid
  let ltv := if 0 < collateralValue then a.1 / collateralValue else 0
  let liq : Bool × Option ℕ :=
    if liquidationLtv ≤ ltv ∧ st.isLiquidated = false then (true, some i)
    else (st.isLiquidated, st.liquidationMonth)
  ({ month := i, year := i / 12, date := p.date, btcPrice := p.price,
     collateralValue := collateralValue, loanBalance := a.1, ltv := ltv,
     netEquity := collateralValue - a.1, interestPaidThisMonth := a.2.1,
     borrowedThisMonth := b.2.1, isLiquidated := liq.1, isProjection := p.isProjection },
   { loanBalance := a.1, totalInterestPaid := a.2.2, totalBorrowed := b.2.2,
     isLiquidated := liq.1, liquidationMonth := liq.2 })

/-- The simulation loop: iterate `simStep` along the price path, stopping
right after the first liquidated step (the source `break`). -/
noncomputable def runSteps (cfg : BBDSimulatorConfig) (monthlyInterestRate liquidationLtv : ℝ) :
    List PathPoint → ℕ → SimLoopState → List BBDMonthlyStep × SimLoopState
  | [], _, st => ([], st)
  | p :: rest, i, st =>
    let r := simStep cfg monthlyInterestRate liquidationLtv i p st
    if r.2.isLiquidated = true then ([r.1], r.2)
    else
      let next := runSteps cfg monthlyInterestRate liquidationLtv rest (i + 1) r.2
      (r.1 :: next.1, next.2)

structure BBDSimulationSummary where
  initialCollateralValue : ℝ
  finalCollateralValue : Option ℝ
  initialLoanBalance : ℝ
  finalLoanBalance : Option ℝ
  initialLtv : ℝ
  finalLtv : Option ℝ
  initialNetEquity : ℝ
  finalNetEquity : Option ℝ
  totalInterestPaid : ℝ
  totalBorrowed : ℝ
  isLiquidated : Bool
  liquidationMonth : Option ℕ
  monthsUntilLiquidation : Option ℕ

structure BBDSimulationResult where
  config : BBDSimulatorConfig
  steps : List BBDMonthlyStep
  summary : BBDSimulationSummary

/-- The price path selection at the top of `runBBDSimulation`:
`historicalData && historicalData.length > 0 ? generateMixedPricePath(...) :
generatePricePath(...)` (an undefined optional argument is the empty list). -/
noncomputable def simPricePath (cfg : BBDSimulatorConfig) (fit : PowerLawFit)
    (startDate : ℤ) (historicalData : List HistoricalPricePoint) (today : ℤ) :
    List PathPoint :=
  if 0 < historicalData.length then
    generateMixedPricePath startDate cfg.projectionYears fit cfg.scenario historicalData today
  else generatePricePath startDate cfg.projectionYears fit cfg.scenario

/-- Loan-state initialization of `runBBDSimulation`: in starting-LTV mode the
initial loan is collateral value at month 0 times startingLTV/100. -/
noncomputable def simInitState (cfg : BBDSimulatorConfig) (pricePath : List PathPoint) :
    SimLoopState :=
  match cfg.borrowMonthly, cfg.startingLtvPercent with
  | false, some v =>
    { loanBalance := cfg.btcHeld * pricePath.headI.price * (v / 100), totalInterestPaid := 0,
      totalBorrowed := cfg.btcHeld * pricePath.headI.price * (v / 100), isLiquidated := false,
      liquidationMonth := none }
  | _, _ =>
    { loanBalance := 0, totalInterestPaid := 0, totalBorrowed := 0,
      isLiquidated := false, liquidationMonth := none }

/-- Summary block at the end of `runBBDSimulation`, from the produced steps
and the final loop state. -/
noncomputable def mkSummary (r : List BBDMonthlyStep × SimLoopState) : BBDSimulationSummary :=
  { initialCollateralValue := r.1.headI.collateralValue
    finalCollateralValue := if r.2.isLiquidated then none else some (r.1.getLastD default).collateralValue
    initialLoanBalance := r.1.headI.loanBalance
    finalLoanBalance := if r.2.isLiquidated then none else some (r.1.getLastD default).loanBalance
    initialLtv := r.1.headI.ltv
    finalLtv := if r.2.isLiquidated then none else some (r.1.getLastD default).ltv
    initialNetEquity := r.1.headI.netEquity
    finalNetEquity := if r.2.isLiquidated then none else some (r.1.getLastD default).netEquity
    totalInterestPaid := r.2.totalInterestPaid
    totalBorrowed := r.2.totalBorrowed
    isLiquidated := r.2.isLiquidated
    liquidationMonth := r.2.liquidationMonth
    monthsUntilLiquidation := r.2.liquidationMonth }

/-- Source function `runBBDSimulation(config, fit, startDate, historicalData?)`.  The
optional historical array is a list ([] for undefined).  The wall clock read
inside `generateMixedPricePath` is the explicit `today` argument. -/
noncomputable def runBBDSimulation (cfg : BBDSimulatorConfig) (fit : PowerLawFit)
    (startDate : ℤ) (historicalData : List HistoricalPricePoint) (today : ℤ) :
    BBDSimulationResult :=
  let pricePath := simPricePath cfg fit startDate historicalData today
  let r := runSteps cfg (cfg.interestAprPercent / 100 / 12) (cfg.liquidationLtvPercent / 100)
    pricePath 0 (simInitState cfg pricePath)
  { config := cfg, steps := r.1, summary := mkSummary r }

/-! ## Concrete fixtures used by witnesses and counterexamples -/

/-- A fit with exponent 0 and coefficient 100000: the model price is the
constant 100000 at every date (`Math.pow(x, 0) = 1` in JS, `x ^ (0:ℝ) = 1`
for `Real.rpow`), making whole simulation runs exactly evaluable. -/
noncomputable def fitB0 : PowerLawFit :=
  { A := 100000, B := 0, rSquared := 0, sigma := 0 }

/-- The day number of 2025-01-01: a month-first start date. -/
def startB : ℤ := daysFromCivil 2025 1 1

/-- The spec's C1 configuration: borrow monthly, capitalize interest. -/
noncomputable def c1Config : BBDSimulatorConfig :=
  { btcHeld := 1, monthlySpendingUsd := 5000, interestAprPercent := 10,
    liquidationLtvPercent := 80, startingLtvPercent := none, borrowMonthly := true,
    borrowFrequency := .monthly, interestMode := .capitalize, projectionYears := 1,
    scenario := .fair, startDate := (2025, 1) }

/-- The C1 configuration with yearly borrow cadence (for C2). -/
noncomputable def c2Config : BBDSimulatorConfig :=
  { btcHeld := 1, monthlySpendingUsd := 5000, interestAprPercent := 10,
    liquidationLtvPercent := 80, startingLtvPercent := none, borrowMonthly := true,
    borrowFrequency := .yearly, interestMode := .capitalize, projectionYears := 1,
    scenario := .fair, startDate := (2025, 1) }

/-- A programmer-error configuration for C3: borrow-cadence mode and a
starting LTV are both requested, and the holding quantity is negative. -/
noncomputable def c3Config : BBDSimulatorConfig :=
  { btcHeld := -1, monthlySpendingUsd := 5000, interestAprPercent := 10,
    liquidationLtvPercent := 80, startingLtvPercent := some 20, borrowMonthly := true,
    borrowFrequency := .monthly, interestMode := .capitalize, projectionYears := 0,
    scenario := .fair, startDate := (2025, 1) }

/-- A lump-sum configuration whose starting LTV (90%) exceeds the liquidation
threshold (80%), so it liquidates at month 0 (for the C4 witness). -/
noncomputable def c4Config : BBDSimulatorConfig :=
  { btcHeld := 1, monthlySpendingUsd := 5000, interestAprPercent := 10,
    liquidationLtvPercent := 80, startingLtvPercent := some 90, borrowMonthly := false,
    borrowFrequency := .monthly, interestMode := .capitalize, projectionYears := 0,
    scenario := .fair, startDate := (2025, 1) }

/-- A borrow-monthly configuration with a 0-year horizon (for C7). -/
noncomputable def c7Config : BBDSimulatorConfig :=
  { btcHeld := 1, monthlySpendingUsd := 5000, interestAprPercent := 10,
    liquidationLtvPercent := 80, startingLtvPercent := none, borrowMonthly := true,
    borrowFrequency := .monthly, interestMode := .capitalize, projectionYears := 0,
    scenario := .fair, startDate := (2025, 1) }

/-- Historical data for C7: one point dated at the simulation start. -/
noncomputable def c7Hist : List HistoricalPricePoint :=
  [{ date := startB, price := 42 }]

/-- A wall-clock date after the simulated month (2025-02-10). -/
def c7Today1 : ℤ := daysFromCivil 2025 2 10

/-- A wall-clock date before the simulated month (2024-12-25). -/
def c7Today2 : ℤ := daysFromCivil 2024 12 25

/-- Lump-sum, pay-monthly configuration (for the C10 witness). -/
noncomputable def c10Config : BBDSimulatorConfig :=
  { btcHeld := 1, monthlySpendingUsd := 5000, interestAprPercent := 10,
    liquidationLtvPercent := 80, startingLtvPercent := some 20, borrowMonthly := false,
    borrowFrequency := .monthly, interestMode := .pay_monthly, projectionYears := 0,
    scenario := .fair, startDate := (2025, 1) }

/-! ## Loop infrastructure lemmas -/

lemma runSteps_nil (cfg : BBDSimulatorConfig) (r l : ℝ) (i : ℕ) (st : SimLoopState) :
    runSteps cfg r l [] i st = ([], st) := rfl

lemma runSteps_cons (cfg : BBDSimulatorConfig) (r l : ℝ) (p : PathPoint)
    (rest : List PathPoint) (i : ℕ) (st : SimLoopState) :
    runSteps cfg r l (p :: rest) i st =
      if (simStep cfg r l i p st).2.isLiquidated = true then
        ([(simStep cfg r l i p st).1], (simStep cfg r l i p st).2)
      else
        ((simStep cfg r l i p st).1 :: (runSteps cfg r l rest (i + 1) (simStep cfg r l i p st).2).1,
          (runSteps cfg r l rest (i + 1) (simStep cfg r l i p st).2).2) := by
  rw [runSteps]

lemma runSteps_length_le (cfg : BBDSimulatorConfig) (r l : ℝ) (path : List PathPoint)
    (i : ℕ) (st : SimLoopState) :
    ((runSteps cfg r l path i st).1).length ≤ path.length := by
  induction path generalizing i st with
  | nil => simp [runSteps_nil]
  | cons p rest ih =>
    rw [runSteps_cons]
    split
    · simp
    · simpa using Nat.succ_le_succ (ih (i + 1) _)

lemma runSteps_ne_nil (cfg : BBDSimulatorConfig) (r l : ℝ) (p : PathPoint)
    (rest : List PathPoint) (i : ℕ) (st : SimLoopState) :
    (runSteps cfg r l (p :: rest) i st).1 ≠ [] := by
  rw [runSteps_cons]
  split <;> simp

lemma runSteps_headI (cfg : BBDSimulatorConfig) (r l : ℝ) (p : PathPoint)
    (rest : List PathPoint) (i : ℕ) (st : SimLoopState) :
    ((runSteps cfg r l (p :: rest) i st).1).headI = (simStep cfg r l i p st).1 := by
  rw [runSteps_cons]
  split <;> rfl

lemma simStep_fst_month (cfg : BBDSimulatorConfig) (r l : ℝ) (i : ℕ) (p : PathPoint)
    (st : SimLoopState) : (simStep cfg r l i p st).1.month = i := rfl

lemma simStep_fst_isLiquidated (cfg : BBDSimulatorConfig) (r l : ℝ) (i : ℕ) (p : PathPoint)
    (st : SimLoopState) :
    (simStep cfg r l i p st).1.isLiquidated = (simStep cfg r l i p st).2.isLiquidated := rfl

lemma simStep_snd_loanBalance (cfg : BBDSimulatorConfig) (r l : ℝ) (i : ℕ) (p : PathPoint)
    (st : SimLoopState) :
    (simStep cfg r l i p st).2.loanBalance = (simStep cfg r l i p st).1.loanBalance := rfl

lemma simStep_fst_isLiquidated_ite (cfg : BBDSimulatorConfig) (r l : ℝ) (i : ℕ)
    (p : PathPoint) (st : SimLoopState) :
    (simStep cfg r l i p st).1.isLiquidated
      = if l ≤ (simStep cfg r l i p st).1.ltv ∧ st.isLiquidated = false then true
        else st.isLiquidated := by
  show (if l ≤ (simStep cfg r l i p st).1.ltv ∧ st.isLiquidated = false
      then ((true : Bool), some i) else (st.isLiquidated, st.liquidationMonth)).1 = _
  split <;> rfl

lemma simStep_snd_liquidationMonth_ite (cfg : BBDSimulatorConfig) (r l : ℝ) (i : ℕ)
    (p : PathPoint) (st : SimLoopState) :
    (simStep cfg r l i p st).2.liquidationMonth
      = if l ≤ (simStep cfg r l i p st).1.ltv ∧ st.isLiquidated = false then some i
        else st.liquidationMonth := by
  show (if l ≤ (simStep cfg r l i p st).1.ltv ∧ st.isLiquidated = false
      then ((true : Bool), some i) else (st.isLiquidated, st.liquidationMonth)).2 = _
  split <;> rfl

/-- Entering an iteration with an unliquidated state, the produced step is
liquidated exactly when its stored LTV reaches the threshold. -/
lemma simStep_liq_iff (cfg : BBDSimulatorConfig) (r l : ℝ) (i : ℕ) (p : PathPoint)
    (st : SimLoopState) (h : st.isLiquidated = false) :
    ((simStep cfg r l i p st).1.isLiquidated = true ↔ l ≤ (simStep cfg r l i p st).1.ltv) := by
  rw [simStep_fst_isLiquidated_ite]
  by_cases hc : l ≤ (simStep cfg r l i p st).1.ltv
  · rw [if_pos ⟨hc, h⟩]
    simp [hc]
  · rw [if_neg (fun hand => hc hand.1), h]
    simp [hc]

lemma simStep_snd_isLiquidated_false (cfg : BBDSimulatorConfig) (r l : ℝ) (i : ℕ)
    (p : PathPoint) (st : SimLoopState) (h : st.isLiquidated = false)
    (hnot : ¬ l ≤ (simStep cfg r l i p st).1.ltv) :
    (simStep cfg r l i p st).2.isLiquidated = false := by
  rw [← simStep_fst_isLiquidated, simStep_fst_isLiquidated_ite,
    if_neg (fun hand => hnot hand.1)]
  exact h

lemma simStep_liq_month_of_liq (cfg : BBDSimulatorConfig) (r l : ℝ) (i : ℕ)
    (p : PathPoint) (st : SimLoopState) (h : st.isLiquidated = false)
    (hb : (simStep cfg r l i p st).2.isLiquidated = true) :
    (simStep cfg r l i p st).2.liquidationMonth = some i := by
  rw [← simStep_fst_isLiquidated, simStep_fst_isLiquidated_ite] at hb
  rw [simStep_snd_liquidationMonth_ite]
  by_cases hc : l ≤ (simStep cfg r l i p st).1.ltv ∧ st.isLiquidated = false
  · rw [if_pos hc]
  · rw [if_neg hc] at hb
    rw [h] at hb
    exact absurd hb (by simp)

/-- A liquidated step is the last step of the produced sequence. -/
lemma runSteps_liq_last (cfg : BBDSimulatorConfig) (r l : ℝ) (path : List PathPoint)
    (i : ℕ) (st : SimLoopState) (hst : st.isLiquidated = false) :
    ∀ j s, ((runSteps cfg r l path i st).1).get? j = some s → s.isLiquidated = true →
      j + 1 = ((runSteps cfg r l path i st).1).length := by
  induction path generalizing i st with
  | nil => intro j s hj; simp [runSteps_nil] at hj
  | cons p rest ih =>
    intro j s hj hliq
    rw [runSteps_cons] at hj ⊢
    by_cases hb : (simStep cfg r l i p st).2.isLiquidated = true
    · rw [if_pos hb] at hj ⊢
      rcases j with _ | j
      · simp
      · simp at hj
    · rw [if_neg hb] at hj ⊢
      rcases j with _ | j
      · exfalso
        rw [List.get?_cons_zero, Option.some_inj] at hj
        rw [← hj, simStep_fst_isLiquidated] at hliq
        exact hb hliq
      · have hb' : (simStep cfg r l i p st).2.isLiquidated = false :=
          Bool.eq_false_iff.mpr hb
        rw [List.get?_cons_succ] at hj
        have := ih (i + 1) (simStep cfg r l i p st).2 hb' j s hj hliq
        simp only [List.length_cons]
        omega

/-- Every produced step records liquidation exactly when its LTV reaches the
threshold (given an unliquidated entering state). -/
lemma runSteps_liq_iff_ltv (cfg : BBDSimulatorConfig) (r l : ℝ) (path : List PathPoint)
    (i : ℕ) (st : SimLoopState) (hst : st.isLiquidated = false) :
    ∀ s ∈ (runSteps cfg r l path i st).1, (s.isLiquidated = true ↔ l ≤ s.ltv) := by
  induction path generalizing i st with
  | nil => intro s hs; simp [runSteps_nil] at hs
  | cons p rest ih =>
    intro s hs
    rw [runSteps_cons] at hs
    by_cases hb : (simStep cfg r l i p st).2.isLiquidated = true
    · rw [if_pos hb] at hs
      rcases List.mem_singleton.mp hs with rfl
      exact simStep_liq_iff cfg r l i p st hst
    · rw [if_neg hb] at hs
      rcases List.mem_cons.mp hs with rfl | hs'
      · exact simStep_liq_iff cfg r l i p st hst
      · exact ih (i + 1) _ (Bool.eq_false_iff.mpr hb) s hs'

/-- The final loop state is liquidated exactly when some produced step is, and
its liquidation month is the month of any liquidated step. -/
lemma runSteps_final_liq (cfg : BBDSimulatorConfig) (r l : ℝ) (path : List PathPoint)
    (i : ℕ) (st : SimLoopState) (hst : st.isLiquidated = false) :
    ((runSteps cfg r l path i st).2.isLiquidated = true ↔
      ∃ s ∈ (runSteps cfg r l path i st).1, s.isLiquidated = true) ∧
    (∀ s ∈ (runSteps cfg r l path i st).1, s.isLiquidated = true →
      (runSteps cfg r l path i st).2.liquidationMonth = some s.month) := by
  induction path generalizing i st with
  | nil =>
    refine ⟨?_, ?_⟩
    · simp [runSteps_nil, hst]
    · intro s hs; simp [runSteps_nil] at hs
  | cons p rest ih =>
    by_cases hb : (simStep cfg r l i p st).2.isLiquidated = true
    · rw [runSteps_cons, if_pos hb]
      refine ⟨?_, ?_⟩
      · simp only [hb, List.mem_singleton, true_iff]
        exact ⟨(simStep cfg r l i p st).1, rfl, by rw [simStep_fst_isLiquidated]; exact hb⟩
      · intro s hs _
        rcases List.mem_singleton.mp hs with rfl
        rw [simStep_fst_month]
        exact simStep_liq_month_of_liq cfg r l i p st hst hb
    · have hb' : (simStep cfg r l i p st).2.isLiquidated = false := Bool.eq_false_iff.mpr hb
      rw [runSteps_cons, if_neg hb]
      obtain ⟨ih1, ih2⟩ := ih (i + 1) (simStep cfg r l i p st).2 hb'
      refine ⟨?_, ?_⟩
      · rw [ih1]
        constructor
        · rintro ⟨s, hs, hliq⟩
          exact ⟨s, List.mem_cons_of_mem _ hs, hliq⟩
        · rintro ⟨s, hs, hliq⟩
          rcases List.mem_cons.mp hs with rfl | hs'
          · rw [simStep_fst_isLiquidated] at hliq
            exact absurd hliq hb
          · exact ⟨s, hs', hliq⟩
      · intro s hs hliq
        rcases List.mem_cons.mp hs with rfl | hs'
        · rw [simStep_fst_isLiquidated] at hliq
          exact absurd hliq hb
        · exact ih2 s hs' hliq

/-! ## Block-level lemmas for the loop body -/

lemma borrowStep_zero (cfg : BBDSimulatorConfig) (lb tb : ℝ) :
    borrowStep cfg 0 lb tb = (lb, 0, tb) := by
  unfold borrowStep
  rw [if_neg]
  rintro ⟨-, h⟩
  exact Nat.lt_irrefl 0 h

lemma interestStep_zero (cfg : BBDSimulatorConfig) (r lb ti : ℝ) :
    interestStep cfg r 0 lb ti = (lb, 0, ti) := by
  unfold interestStep
  rw [if_neg (Nat.lt_irrefl 0)]

lemma borrowStep_off (cfg : BBDSimulatorConfig) (i : ℕ) (lb tb : ℝ)
    (hb : cfg.borrowMonthly = false) : borrowStep cfg i lb tb = (lb, 0, tb) := by
  unfold borrowStep
  rw [if_neg]
  rintro ⟨h, -⟩
  rw [hb] at h
  cases h

lemma borrowStep_pos_monthly (cfg : BBDSimulatorConfig) (i : ℕ) (lb tb : ℝ)
    (hb : cfg.borrowMonthly = true) (hf : cfg.borrowFrequency = .monthly) (hi : 0 < i) :
    borrowStep cfg i lb tb =
      (lb + cfg.monthlySpendingUsd, cfg.monthlySpendingUsd, tb + cfg.monthlySpendingUsd) := by
  unfold borrowStep
  rw [if_pos ⟨hb, hi⟩, hf]

lemma borrowStep_pos_yearly (cfg : BBDSimulatorConfig) (i : ℕ) (lb tb : ℝ)
    (hb : cfg.borrowMonthly = true) (hf : cfg.borrowFrequency = .yearly) (hi : 0 < i) :
    borrowStep cfg i lb tb =
      if i % 12 = 0 then
        (lb + cfg.monthlySpendingUsd * 12, cfg.monthlySpendingUsd * 12,
          tb + cfg.monthlySpendingUsd * 12)
      else (lb, 0, tb) := by
  unfold borrowStep
  rw [if_pos ⟨hb, hi⟩, hf]

lemma interestStep_pos_cap (cfg : BBDSimulatorConfig) (r : ℝ) (i : ℕ) (lb ti : ℝ)
    (hm : cfg.interestMode = .capitalize) (hi : 0 < i) :
    interestStep cfg r i lb ti = (lb + lb * r, 0, ti) := by
  unfold interestStep
  rw [if_pos hi, hm]

lemma interestStep_pos_pay (cfg : BBDSimulatorConfig) (r : ℝ) (i : ℕ) (lb ti : ℝ)
    (hm : cfg.interestMode = .pay_monthly) (hi : 0 < i) :
    interestStep cfg r i lb ti = (lb, lb * r, ti + lb * r) := by
  unfold interestStep
  rw [if_pos hi, hm]

lemma simStep_fst_loanBalance (cfg : BBDSimulatorConfig) (r l : ℝ) (i : ℕ) (p : PathPoint)
    (st : SimLoopState) :
    (simStep cfg r l i p st).1.loanBalance
      = (interestStep cfg r i (borrowStep cfg i st.loanBalance st.totalBorrowed).1
          st.totalInterestPaid).1 := rfl

lemma simStep_fst_borrowedThisMonth (cfg : BBDSimulatorConfig) (r l : ℝ) (i : ℕ)
    (p : PathPoint) (st : SimLoopState) :
    (simStep cfg r l i p st).1.borrowedThisMonth
      = (borrowStep cfg i st.loanBalance st.totalBorrowed).2.1 := rfl

lemma simStep_fst_collateralValue (cfg : BBDSimulatorConfig) (r l : ℝ) (i : ℕ)
    (p : PathPoint) (st : SimLoopState) :
    (simStep cfg r l i p st).1.collateralValue = cfg.btcHeld * p.price := rfl

lemma simStep_fst_btcPrice (cfg : BBDSimulatorConfig) (r l : ℝ) (i : ℕ)
    (p : PathPoint) (st : SimLoopState) :
    (simStep cfg r l i p st).1.btcPrice = p.price := rfl

lemma simStep_fst_ltv (cfg : BBDSimulatorConfig) (r l : ℝ) (i : ℕ) (p : PathPoint)
    (st : SimLoopState) :
    (simStep cfg r l i p st).1.ltv
      = if 0 < cfg.btcHeld * p.price then
          (simStep cfg r l i p st).1.loanBalance / (cfg.btcHeld * p.price)
        else 0 := rfl

lemma simStep_ltv_zero_of_loan_zero (cfg : BBDSimulatorConfig) (r l : ℝ) (i : ℕ)
    (p : PathPoint) (st : SimLoopState)
    (h : (simStep cfg r l i p st).1.loanBalance = 0) :
    (simStep cfg r l i p st).1.ltv = 0 := by
  rw [simStep_fst_ltv, h]
  split
  · exact zero_div _
  · rfl

/-! ## Loop invariants for the claims -/

/-- In borrow-enabled mode, every step after month 0 borrows exactly the base
monthly spending (monthly cadence) or 12x it at nonzero multiples of 12
(yearly cadence, 0 in the other months). -/
lemma runSteps_borrowed (cfg : BBDSimulatorConfig) (r l : ℝ) (path : List PathPoint)
    (i : ℕ) (st : SimLoopState) (hb : cfg.borrowMonthly = true) :
    ∀ s ∈ (runSteps cfg r l path i st).1, 0 < s.month →
      (cfg.borrowFrequency = .monthly → s.borrowedThisMonth = cfg.monthlySpendingUsd) ∧
      (cfg.borrowFrequency = .yearly → s.borrowedThisMonth =
        if s.month % 12 = 0 then cfg.monthlySpendingUsd * 12 else 0) := by
  induction path generalizing i st with
  | nil => intro s hs; simp [runSteps_nil] at hs
  | cons p rest ih =>
    intro s hs hpos
    have hhead : ∀ (hseq : s = (simStep cfg r l i p st).1),
        (cfg.borrowFrequency = .monthly → s.borrowedThisMonth = cfg.monthlySpendingUsd) ∧
        (cfg.borrowFrequency = .yearly → s.borrowedThisMonth =
          if s.month % 12 = 0 then cfg.monthlySpendingUsd * 12 else 0) := by
      intro hseq
      have hi : 0 < i := by
        have := simStep_fst_month cfg r l i p st
        rw [hseq, this] at hpos
        exact hpos
      constructor
      · intro hf
        rw [hseq, simStep_fst_borrowedThisMonth, borrowStep_pos_monthly cfg i _ _ hb hf hi]
      · intro hf
        rw [hseq, simStep_fst_borrowedThisMonth, borrowStep_pos_yearly cfg i _ _ hb hf hi,
          simStep_fst_month]
        split <;> rfl
    rw [runSteps_cons] at hs
    by_cases hbrk : (simStep cfg r l i p st).2.isLiquidated = true
    · rw [if_pos hbrk] at hs
      exact hhead (List.mem_singleton.mp hs)
    · rw [if_neg hbrk] at hs
      rcases List.mem_cons.mp hs with heq | hs'
      · exact hhead heq
      · exact ih (i + 1) _ s hs' hpos

/-- In lump-sum mode with pay-monthly interest, the loop never changes the
loan balance. -/
lemma runSteps_loan_const (cfg : BBDSimulatorConfig) (r l : ℝ) (path : List PathPoint)
    (i : ℕ) (st : SimLoopState) (hbm : cfg.borrowMonthly = false)
    (hm : cfg.interestMode = .pay_monthly) :
    ∀ s ∈ (runSteps cfg r l path i st).1, s.loanBalance = st.loanBalance := by
  induction path generalizing i st with
  | nil => intro s hs; simp [runSteps_nil] at hs
  | cons p rest ih =>
    intro s hs
    have hstep : (simStep cfg r l i p st).1.loanBalance = st.loanBalance := by
      rw [simStep_fst_loanBalance, borrowStep_off cfg i _ _ hbm]
      by_cases hi : 0 < i
      · rw [interestStep_pos_pay cfg r i _ _ hm hi]
      · have : i = 0 := Nat.eq_zero_of_not_pos hi
        subst this
        rw [interestStep_zero]
    rw [runSteps_cons] at hs
    by_cases hbrk : (simStep cfg r l i p st).2.isLiquidated = true
    · rw [if_pos hbrk] at hs
      rcases List.mem_singleton.mp hs with rfl
      exact hstep
    · rw [if_neg hbrk] at hs
      rcases List.mem_cons.mp hs with rfl | hs'
      · exact hstep
      · rw [ih (i + 1) _ s hs', simStep_snd_loanBalance, hstep]

/-- The field `startingLtvPercent` is never read inside the loop body. -/
lemma simStep_startingLtv_irrel (cfg : BBDSimulatorConfig) (x : Option ℝ) (r l : ℝ)
    (i : ℕ) (p : PathPoint) (st : SimLoopState) :
    simStep { cfg with startingLtvPercent := x } r l i p st = simStep cfg r l i p st := rfl

lemma runSteps_startingLtv_irrel (cfg : BBDSimulatorConfig) (x : Option ℝ) (r l : ℝ)
    (path : List PathPoint) (i : ℕ) (st : SimLoopState) :
    runSteps { cfg with startingLtvPercent := x } r l path i st
      = runSteps cfg r l path i st := by
  induction path generalizing i st with
  | nil => rfl
  | cons p rest ih =>
    rw [runSteps_cons, runSteps_cons, simStep_startingLtv_irrel, ih (i + 1)]

lemma generatePricePath_length (startDate : ℤ) (y : ℕ) (fit : PowerLawFit)
    (sc : PriceScenario) : (generatePricePath startDate y fit sc).length = y * 12 + 1 := by
  simp only [generatePricePath, List.length_map, List.length_range]

lemma generateMixedPricePath_length (startDate : ℤ) (y : ℕ) (fit : PowerLawFit)
    (sc : PriceScenario) (hist : List HistoricalPricePoint) (today : ℤ) :
    (generateMixedPricePath startDate y fit sc hist today).length = y * 12 + 1 := by
  simp only [generateMixedPricePath, List.length_map, List.length_range]

lemma simPricePath_ne_nil (cfg : BBDSimulatorConfig) (fit : PowerLawFit) (startDate : ℤ)
    (hist : List HistoricalPricePoint) (today : ℤ) :
    simPricePath cfg fit startDate hist today ≠ [] := by
  intro h
  have hlen := congrArg List.length h
  unfold simPricePath at hlen
  split at hlen
  · rw [generateMixedPricePath_length] at hlen
    simp at hlen
  · rw [generatePricePath_length] at hlen
    simp at hlen

lemma simInitState_isLiquidated (cfg : BBDSimulatorConfig) (path : List PathPoint) :
    (simInitState cfg path).isLiquidated = false := by
  unfold simInitState
  rcases hbm : cfg.borrowMonthly with _ | _ <;> rcases hsl : cfg.startingLtvPercent with _ | v <;>
    simp [hbm, hsl]

lemma simInitState_loan_zero (cfg : BBDSimulatorConfig) (path : List PathPoint)
    (hb : cfg.borrowMonthly = true) : (simInitState cfg path).loanBalance = 0 := by
  unfold simInitState
  rw [hb]

lemma simInitState_lump (cfg : BBDSimulatorConfig) (path : List PathPoint) (v : ℝ)
    (hb : cfg.borrowMonthly = false) (hsl : cfg.startingLtvPercent = some v) :
    (simInitState cfg path).loanBalance = cfg.btcHeld * path.headI.price * (v / 100) := by
  unfold simInitState
  rw [hb, hsl]

/-- Bridge: the steps of a simulation result are the loop run on the selected
price path from the initial state. -/
lemma runBBDSimulation_steps (cfg : BBDSimulatorConfig) (fit : PowerLawFit) (startDate : ℤ)
    (hist : List HistoricalPricePoint) (today : ℤ) :
    (runBBDSimulation cfg fit startDate hist today).steps
      = (runSteps cfg (cfg.interestAprPercent / 100 / 12) (cfg.liquidationLtvPercent / 100)
          (simPricePath cfg fit startDate hist today) 0
          (simInitState cfg (simPricePath cfg fit startDate hist today))).1 := rfl

lemma runBBDSimulation_summary (cfg : BBDSimulatorConfig) (fit : PowerLawFit) (startDate : ℤ)
    (hist : List HistoricalPricePoint) (today : ℤ) :
    (runBBDSimulation cfg fit startDate hist today).summary
      = mkSummary (runSteps cfg (cfg.interestAprPercent / 100 / 12)
          (cfg.liquidationLtvPercent / 100) (simPricePath cfg fit startDate hist today) 0
          (simInitState cfg (simPricePath cfg fit startDate hist today))) := rfl

/-! ## Generic month-level evaluation lemmas -/

lemma simStep_loan_month0 (cfg : BBDSimulatorConfig) (r l : ℝ) (p : PathPoint)
    (st : SimLoopState) : (simStep cfg r l 0 p st).1.loanBalance = st.loanBalance := by
  rw [simStep_fst_loanBalance, borrowStep_zero, interestStep_zero]

/-- Month 0 never liquidates when the entering loan balance is zero and the
liquidation threshold is positive. -/
lemma month0_no_liq (cfg : BBDSimulatorConfig) (r l : ℝ) (p : PathPoint) (st : SimLoopState)
    (hst : st.isLiquidated = false) (hloan : st.loanBalance = 0) (hl : 0 < l) :
    (simStep cfg r l 0 p st).2.isLiquidated = false := by
  apply simStep_snd_isLiquidated_false cfg r l 0 p st hst
  rw [simStep_ltv_zero_of_loan_zero cfg r l 0 p st (by rw [simStep_loan_month0, hloan])]
  exact not_le.mpr hl

lemma runSteps_get?_zero (cfg : BBDSimulatorConfig) (r l : ℝ) (p : PathPoint)
    (rest : List PathPoint) (i : ℕ) (st : SimLoopState) :
    (runSteps cfg r l (p :: rest) i st).1.get? 0 = some (simStep cfg r l i p st).1 := by
  rw [runSteps_cons]
  split <;> rfl

lemma runSteps_cons_no_break (cfg : BBDSimulatorConfig) (r l : ℝ) (p : PathPoint)
    (rest : List PathPoint) (i : ℕ) (st : SimLoopState)
    (h : (simStep cfg r l i p st).2.isLiquidated = false) :
    (runSteps cfg r l (p :: rest) i st).1
      = (simStep cfg r l i p st).1
        :: (runSteps cfg r l rest (i + 1) (simStep cfg r l i p st).2).1 := by
  rw [runSteps_cons, if_neg (by simp [h])]

lemma runSteps_get?_one (cfg : BBDSimulatorConfig) (r l : ℝ) (p0 p1 : PathPoint)
    (rest : List PathPoint) (i : ℕ) (st : SimLoopState)
    (h : (simStep cfg r l i p0 st).2.isLiquidated = false) :
    (runSteps cfg r l (p0 :: p1 :: rest) i st).1.get? 1
      = some (simStep cfg r l (i + 1) p1 (simStep cfg r l i p0 st).2).1 := by
  rw [runSteps_cons_no_break cfg r l p0 (p1 :: rest) i st h, List.get?_cons_succ,
    runSteps_get?_zero]

lemma runSteps_get?_two (cfg : BBDSimulatorConfig) (r l : ℝ) (p0 p1 p2 : PathPoint)
    (rest : List PathPoint) (i : ℕ) (st : SimLoopState)
    (h0 : (simStep cfg r l i p0 st).2.isLiquidated = false)
    (h1 : (simStep cfg r l (i + 1) p1 (simStep cfg r l i p0 st).2).2.isLiquidated = false) :
    (runSteps cfg r l (p0 :: p1 :: p2 :: rest) i st).1.get? 2
      = some (simStep cfg r l (i + 2) p2
          (simStep cfg r l (i + 1) p1 (simStep cfg r l i p0 st).2).2).1 := by
  rw [runSteps_cons_no_break cfg r l p0 (p1 :: p2 :: rest) i st h0, List.get?_cons_succ,
    runSteps_cons_no_break cfg r l p1 (p2 :: rest) (i + 1) _ h1, List.get?_cons_succ,
    runSteps_get?_zero]

/-- Every point of a scenario-only path carries the scenario price of its
date. -/
lemma generatePricePath_price (s : ℤ) (y : ℕ) (fit : PowerLawFit) (sc : PriceScenario) :
    ∀ q ∈ generatePricePath s y fit sc, q.price = getScenarioPrice q.date fit sc := by
  intro q hq
  obtain ⟨m, -, rfl⟩ := List.mem_map.mp hq
  rfl

/-- With the flat fit the fair-scenario price is the constant 100000. -/
lemma getScenarioPrice_fitB0 (d : ℤ) : getScenarioPrice d fitB0 .fair = 100000 := by
  simp [getScenarioPrice, powerLawPrice, fitB0, Real.rpow_zero]

lemma simPricePath_nil (cfg : BBDSimulatorConfig) (fit : PowerLawFit) (s t : ℤ) :
    simPricePath cfg fit s [] t
      = generatePricePath s cfg.projectionYears fit cfg.scenario := rfl

/-- With no historical data, a fair-scenario flat-fit path prices every
month at 100000. -/
lemma simPricePath_fitB0_price (cfg : BBDSimulatorConfig) (s t : ℤ)
    (hsc : cfg.scenario = .fair) :
    ∀ q ∈ simPricePath cfg fitB0 s [] t, q.price = 100000 := by
  intro q hq
  rw [simPricePath_nil] at hq
  rw [generatePricePath_price s cfg.projectionYears fitB0 cfg.scenario q hq, hsc,
    getScenarioPrice_fitB0]

/-! ## Claim C5: degenerate input handling of the fit engine -/

/-- Claim C5: `fitPowerLaw` first discards points with price ≤ 0 or age ≤ 0
(its result only depends on the valid points); with fewer than 2 valid points
it returns the zero fit, raising no error (it is a total function); and every
returned fit has sigma ≥ 0. -/
theorem c5_fit_degenerate (data : List PriceDataPoint) :
    fitPowerLaw data = fitPowerLaw (validFitData data) ∧
    ((validFitData data).length < 2 →
      fitPowerLaw data = { A := 0, B := 0, rSquared := 0, sigma := 0 }) ∧
    0 ≤ (fitPowerLaw data).sigma := by
  have hid : validFitData (validFitData data) = validFitData data := by
    unfold validFitData
    rw [List.filter_filter]
    congr 1
    funext d
    exact Bool.and_self _
  refine ⟨?_, ?_, ?_⟩
  · unfold fitPowerLaw
    rw [hid]
  · intro h
    simp only [fitPowerLaw, if_pos h]
  · by_cases h : (validFitData data).length < 2
    · simp only [fitPowerLaw, if_pos h]
      exact le_rfl
    · simp only [fitPowerLaw, if_neg h]
      exact Real.sqrt_nonneg _

/-- Witness for C5: at the empty series there is one valid point short of two,
the zero fit is returned, and its sigma is nonnegative. -/
theorem c5_fit_degenerate_witness :
    (validFitData ([] : List PriceDataPoint)).length < 2 ∧
    fitPowerLaw ([] : List PriceDataPoint) = { A := 0, B := 0, rSquared := 0, sigma := 0 } ∧
    0 ≤ (fitPowerLaw ([] : List PriceDataPoint)).sigma := by
  have hv : (validFitData ([] : List PriceDataPoint)).length < 2 := by
    simp [validFitData]
  exact ⟨hv, (c5_fit_degenerate []).2.1 hv, (c5_fit_degenerate []).2.2⟩

/-! ## Claim C6: prediction at nonpositive age -/

/-- Counterexample for C6: the claim says `powerLawPrice` returns 0 for every
age ≤ 0, but there is no guard in the source: at age 0 with exponent B = 0 it
returns A (here 1, since `Math.pow(0, 0) = 1` in JS and `(0:ℝ) ^ (0:ℝ) = 1`),
which is not 0. -/
theorem c6_counterexample :
    powerLawPrice 0 { A := 1, B := 0, rSquared := 0, sigma := 0 } = 1 ∧ (1 : ℝ) ≠ 0 := by
  constructor
  · simp [powerLawPrice, Real.rpow_zero]
  · norm_num

/-- Claim C6 (amended): `powerLawPrice` applies no guard and always returns
A·age^B; for age > 0 that is the claimed value, and at age = 0 the result is
0 whenever B ≠ 0 (but A when B = 0, refuting the unconditional "0 for
age ≤ 0"). -/
theorem c6_powerLawPrice (fit : PowerLawFit) (days : ℝ) :
    (0 < days → powerLawPrice days fit = fit.A * days ^ fit.B) ∧
    (days = 0 → fit.B ≠ 0 → powerLawPrice days fit = 0) := by
  constructor
  · intro _
    rfl
  · intro h hB
    simp [powerLawPrice, h, Real.zero_rpow hB]

/-- Witness for C6's theorem at age 1 (positive) and age 0 with B = 3. -/
theorem c6_powerLawPrice_witness :
    (0 : ℝ) < 1 ∧
    powerLawPrice 1 { A := 2, B := 3, rSquared := 0, sigma := 0 } = 2 * (1 : ℝ) ^ (3 : ℝ) ∧
    (0 : ℝ) = 0 ∧ (3 : ℝ) ≠ 0 ∧
    powerLawPrice 0 { A := 2, B := 3, rSquared := 0, sigma := 0 } = 0 := by
  refine ⟨by norm_num, ?_, rfl, by norm_num, ?_⟩
  · exact (c6_powerLawPrice { A := 2, B := 3, rSquared := 0, sigma := 0 } 1).1 (by norm_num)
  · exact (c6_powerLawPrice { A := 2, B := 3, rSquared := 0, sigma := 0 } 0).2 rfl (by norm_num)

/-! ## Claim C8: nested sigma bands -/

/-- Claim C8: for every fit with sigma > 0 and every annotated point with
positive model price, the bands equal modelPrice·e^{k·sigma} for
k ∈ {-2,-1,1,2} and nest strictly around the model price. -/
theorem c8_bands_nested (data : List PriceDataPoint) (fit : PowerLawFit)
    (hs : 0 < fit.sigma) :
    ∀ p ∈ applyFitToData data fit, 0 < p.fittedPrice →
      p.band1SigmaUpper = p.fittedPrice * Real.exp fit.sigma ∧
      p.band1SigmaLower = p.fittedPrice * Real.exp (-fit.sigma) ∧
      p.band2SigmaUpper = p.fittedPrice * Real.exp (2 * fit.sigma) ∧
      p.band2SigmaLower = p.fittedPrice * Real.exp (-(2 * fit.sigma)) ∧
      p.band2SigmaLower < p.band1SigmaLower ∧
      p.band1SigmaLower < p.fittedPrice ∧
      p.fittedPrice < p.band1SigmaUpper ∧
      p.band1SigmaUpper < p.band2SigmaUpper := by
  intro p hp hfp
  obtain ⟨d, -, rfl⟩ := List.mem_map.mp hp
  have hF : 0 < powerLawPrice (d.daysSinceGenesis : ℝ) fit := hfp
  refine ⟨rfl, rfl, rfl, rfl, ?_, ?_, ?_, ?_⟩
  · exact mul_lt_mul_of_pos_left (Real.exp_lt_exp.mpr (by linarith)) hF
  · have h := mul_lt_mul_of_pos_left
      (Real.exp_lt_exp.mpr (show -fit.sigma < 0 by linarith)) hF
    rw [Real.exp_zero, mul_one] at h
    exact h
  · have h := mul_lt_mul_of_pos_left
      (Real.exp_lt_exp.mpr (show (0 : ℝ) < fit.sigma by linarith)) hF
    rw [Real.exp_zero, mul_one] at h
    exact h
  · exact mul_lt_mul_of_pos_left (Real.exp_lt_exp.mpr (by linarith)) hF

/-- Witness for C8 at a one-point series with fit A = 1, B = 0, sigma = 1:
the model price is 1 > 0 and the lower one-sigma band lies strictly below it. -/
theorem c8_bands_nested_witness :
    (0 : ℝ) < ({ A := 1, B := 0, rSquared := 0, sigma := 1 } : PowerLawFit).sigma ∧
    ((applyFitToData [{ date := 0, timestamp := 0, price := 5, daysSinceGenesis := 10 }]
        { A := 1, B := 0, rSquared := 0, sigma := 1 }).headI.band1SigmaLower
      < (applyFitToData [{ date := 0, timestamp := 0, price := 5, daysSinceGenesis := 10 }]
        { A := 1, B := 0, rSquared := 0, sigma := 1 }).headI.fittedPrice) := by
  have hs : (0 : ℝ) < ({ A := 1, B := 0, rSquared := 0, sigma := 1 } : PowerLawFit).sigma := by
    norm_num
  have hmem : (applyFitToData [{ date := 0, timestamp := 0, price := 5, daysSinceGenesis := 10 }]
      { A := 1, B := 0, rSquared := 0, sigma := 1 }).headI
      ∈ applyFitToData [{ date := 0, timestamp := 0, price := 5, daysSinceGenesis := 10 }]
        { A := 1, B := 0, rSquared := 0, sigma := 1 } := by
    simp [applyFitToData]
  have hfp : (0 : ℝ) <
      (applyFitToData [{ date := 0, timestamp := 0, price := 5, daysSinceGenesis := 10 }]
        { A := 1, B := 0, rSquared := 0, sigma := 1 }).headI.fittedPrice := by
    simp [applyFitToData, powerLawPrice, Real.rpow_zero]
  exact ⟨hs, (c8_bands_nested _ _ hs _ hmem hfp).2.2.2.2.2.1⟩

/-! ## Claim C9: monthly path shape -/

/-- Counterexample for C9: starting the path at 2020-01-15, the first point is
dated 2020-01-01 (the first of the start month), not at the start date. -/
theorem c9_counterexample :
    (generatePricePath (daysFromCivil 2020 1 15) 0
        { A := 0, B := 0, rSquared := 0, sigma := 0 } .fair).headI.date
      = daysFromCivil 2020 1 1 ∧
    daysFromCivil 2020 1 1 ≠ daysFromCivil 2020 1 15 := by
  constructor
  · simp only [generatePricePath, Nat.zero_mul, Nat.zero_add,
      show List.range 1 = [0] from rfl, List.map_cons, List.map_nil, List.headI]
    decide
  · decide

/-- Claim C9 (amended): for every start date, year count, fit and scenario the
monthly path has exactly years·12+1 points, and its first point is dated on
the first day of the start date's calendar month (which is the start date
itself exactly when the start date is a month-first). -/
theorem c9_path_shape (startDate : ℤ) (years : ℕ) (fit : PowerLawFit)
    (scenario : PriceScenario) :
    (generatePricePath startDate years fit scenario).length = years * 12 + 1 ∧
    (generatePricePath startDate years fit scenario).headI.date
      = dateUTC (yearOfDate startDate) (monthIndexOfDate startDate) := by
  constructor
  · simp only [generatePricePath, List.length_map, List.length_range]
  · simp [generatePricePath, List.range_succ_eq_map]

/-! ## Claim C7: determinism and the wall clock -/

/-- Claim C7 (amended, positive part): with no historical data the simulation
result does not depend on the wall clock; it is a pure function of the
remaining inputs. -/
theorem c7_deterministic (cfg : BBDSimulatorConfig) (fit : PowerLawFit)
    (startDate t1 t2 : ℤ) :
    runBBDSimulation cfg fit startDate [] t1 = runBBDSimulation cfg fit startDate [] t2 := by
  rfl

/-! ## Claim C4: liquidation halts the simulation -/

/-- Claim C4: in every simulation result a liquidated step is the last step
(no steps are produced after it, making the flag trivially sticky);
liquidation is flagged exactly when the step's LTV reaches the threshold;
the summary is liquidated exactly when some step is; and the summary's
liquidation month is the liquidated step's month index. -/
theorem c4_liquidation_halts (cfg : BBDSimulatorConfig) (fit : PowerLawFit) (startDate : ℤ)
    (hist : List HistoricalPricePoint) (today : ℤ) :
    (∀ j s, ((runBBDSimulation cfg fit startDate hist today).steps).get? j = some s →
      s.isLiquidated = true →
      j + 1 = ((runBBDSimulation cfg fit startDate hist today).steps).length) ∧
    (∀ s ∈ (runBBDSimulation cfg fit startDate hist today).steps,
      (s.isLiquidated = true ↔ cfg.liquidationLtvPercent / 100 ≤ s.ltv)) ∧
    ((runBBDSimulation cfg fit startDate hist today).summary.isLiquidated = true ↔
      ∃ s ∈ (runBBDSimulation cfg fit startDate hist today).steps, s.isLiquidated = true) ∧
    (∀ s ∈ (runBBDSimulation cfg fit startDate hist today).steps, s.isLiquidated = true →
      (runBBDSimulation cfg fit startDate hist today).summary.liquidationMonth
        = some s.month) := by
  rw [runBBDSimulation_steps, runBBDSimulation_summary]
  have hst := simInitState_isLiquidated cfg (simPricePath cfg fit startDate hist today)
  exact ⟨runSteps_liq_last cfg _ _ _ 0 _ hst, runSteps_liq_iff_ltv cfg _ _ _ 0 _ hst,
    (runSteps_final_liq cfg _ _ _ 0 _ hst).1, (runSteps_final_liq cfg _ _ _ 0 _ hst).2⟩

/-! ## Claim C2: borrowed amounts -/

/-- Claim C2 (amended): in borrow-enabled mode, every step after month 0
borrows exactly the base monthly spending in monthly cadence; in yearly
cadence it borrows 12x the base monthly spending when the month index is a
nonzero multiple of 12 and nothing otherwise.  The borrowed amount never
varies with the simulated year: the simulator configuration has no spending
step-ups. -/
theorem c2_borrowed_amounts (cfg : BBDSimulatorConfig) (fit : PowerLawFit) (startDate : ℤ)
    (hist : List HistoricalPricePoint) (today : ℤ) (hb : cfg.borrowMonthly = true) :
    ∀ s ∈ (runBBDSimulation cfg fit startDate hist today).steps, 0 < s.month →
      (cfg.borrowFrequency = .monthly → s.borrowedThisMonth = cfg.monthlySpendingUsd) ∧
      (cfg.borrowFrequency = .yearly → s.borrowedThisMonth =
        if s.month % 12 = 0 then cfg.monthlySpendingUsd * 12 else 0) := by
  rw [runBBDSimulation_steps]
  exact runSteps_borrowed cfg _ _ _ 0 _ hb

/-- Concrete evaluation of the yearly-cadence run: month 1 exists, and its
step borrows nothing. -/
lemma c2_run_eval :
    ((runBBDSimulation c2Config fitB0 startB [] 0).steps.getD 1 default).month = 1 ∧
    ((runBBDSimulation c2Config fitB0 startB [] 0).steps.getD 1 default).borrowedThisMonth
      = 0 ∧
    (runBBDSimulation c2Config fitB0 startB [] 0).steps.getD 1 default
      ∈ (runBBDSimulation c2Config fitB0 startB [] 0).steps := by
  have hlen : (simPricePath c2Config fitB0 startB [] 0).length = 13 := by
    rw [simPricePath_nil, generatePricePath_length]
    norm_num [c2Config]
  rcases hP : simPricePath c2Config fitB0 startB [] 0 with _ | ⟨p0, _ | ⟨p1, rest⟩⟩
  · rw [hP] at hlen
    simp at hlen
  · rw [hP] at hlen
    simp at hlen
  have hst0liq := simInitState_isLiquidated c2Config (p0 :: p1 :: rest)
  have hst0loan : (simInitState c2Config (p0 :: p1 :: rest)).loanBalance = 0 :=
    simInitState_loan_zero c2Config (p0 :: p1 :: rest) rfl
  have hl : (0 : ℝ) < c2Config.liquidationLtvPercent / 100 := by norm_num [c2Config]
  have h0 : (simStep c2Config (c2Config.interestAprPercent / 100 / 12)
      (c2Config.liquidationLtvPercent / 100) 0 p0
      (simInitState c2Config (p0 :: p1 :: rest))).2.isLiquidated = false :=
    month0_no_liq _ _ _ _ _ hst0liq hst0loan hl
  have hget : (runBBDSimulation c2Config fitB0 startB [] 0).steps.get? 1
      = some ((simStep c2Config (c2Config.interestAprPercent / 100 / 12)
          (c2Config.liquidationLtvPercent / 100) (0 + 1) p1
          (simStep c2Config (c2Config.interestAprPercent / 100 / 12)
            (c2Config.liquidationLtvPercent / 100) 0 p0
            (simInitState c2Config (p0 :: p1 :: rest))).2).1) := by
    rw [runBBDSimulation_steps, hP]
    exact runSteps_get?_one _ _ _ _ _ _ 0 _ h0
  have hgetD : (runBBDSimulation c2Config fitB0 startB [] 0).steps.getD 1 default
      = (simStep c2Config (c2Config.interestAprPercent / 100 / 12)
          (c2Config.liquidationLtvPercent / 100) (0 + 1) p1
          (simStep c2Config (c2Config.interestAprPercent / 100 / 12)
            (c2Config.liquidationLtvPercent / 100) 0 p0
            (simInitState c2Config (p0 :: p1 :: rest))).2).1 := by
    rw [List.getD_eq_getElem?_getD, ← List.get?_eq_getElem?, hget]
    rfl
  refine ⟨?_, ?_, ?_⟩
  · rw [hgetD, simStep_fst_month]
  · rw [hgetD, simStep_fst_borrowedThisMonth,
      borrowStep_pos_yearly _ _ _ _ rfl rfl (by norm_num)]
    norm_num
  · rw [hgetD]
    exact List.get?_mem hget

/-- Counterexample for C2: in yearly cadence, month 1 borrows 0, which is
neither the configured monthly spending (5000) nor its 12x yearly event
amount, so the borrowed amount is not "the configured spending amount for
the current simulated year" at every month i > 0. -/
theorem c2_counterexample :
    ((runBBDSimulation c2Config fitB0 startB [] 0).steps.getD 1 default).month = 1 ∧
    ((runBBDSimulation c2Config fitB0 startB [] 0).steps.getD 1 default).borrowedThisMonth
      = 0 ∧
    (0 : ℝ) ≠ c2Config.monthlySpendingUsd ∧
    (0 : ℝ) ≠ c2Config.monthlySpendingUsd * 12 := by
  obtain ⟨hm, hb, -⟩ := c2_run_eval
  refine ⟨hm, hb, ?_, ?_⟩ <;> norm_num [c2Config]

/-- Witness for C2's theorem: the yearly-cadence run at month 1 satisfies the
amended borrowing rule (it borrows 0 since 1 is not a multiple of 12). -/
theorem c2_borrowed_amounts_witness :
    c2Config.borrowMonthly = true ∧
    0 < ((runBBDSimulation c2Config fitB0 startB [] 0).steps.getD 1 default).month ∧
    (c2Config.borrowFrequency = .yearly →
      ((runBBDSimulation c2Config fitB0 startB [] 0).steps.getD 1 default).borrowedThisMonth
        = if ((runBBDSimulation c2Config fitB0 startB [] 0).steps.getD 1 default).month % 12
            = 0 then c2Config.monthlySpendingUsd * 12 else 0) := by
  obtain ⟨hm, -, hmem⟩ := c2_run_eval
  have hpos : 0 < ((runBBDSimulation c2Config fitB0 startB [] 0).steps.getD 1 default).month := by
    rw [hm]
    norm_num
  exact ⟨rfl, hpos,
    fun hf => ((c2_borrowed_amounts c2Config fitB0 startB [] 0 rfl) _ hmem hpos).2 hf⟩

/-! ## Claim C10: lump-sum mode with pay-monthly interest never moves the loan -/

/-- Claim C10: in starting-LTV mode with pay-monthly interest, every step's
loan balance equals the initial loan, month-0 collateral value times
startingLTV/100; the balance is never changed after initialization. -/
theorem c10_lump_sum_loan_frame (cfg : BBDSimulatorConfig) (fit : PowerLawFit)
    (startDate : ℤ) (hist : List HistoricalPricePoint) (today : ℤ) (v : ℝ)
    (hbm : cfg.borrowMonthly = false) (hsl : cfg.startingLtvPercent = some v)
    (hm : cfg.interestMode = .pay_monthly) :
    ∀ s ∈ (runBBDSimulation cfg fit startDate hist today).steps,
      s.loanBalance
        = ((runBBDSimulation cfg fit startDate hist today).steps).headI.collateralValue
            * (v / 100) := by
  intro s hs
  rw [runBBDSimulation_steps] at hs ⊢
  obtain ⟨p0, rest, hp⟩ :=
    List.exists_cons_of_ne_nil (simPricePath_ne_nil cfg fit startDate hist today)
  rw [hp] at hs ⊢
  rw [runSteps_headI, simStep_fst_collateralValue]
  have hconst := runSteps_loan_const cfg _ _ (p0 :: rest) 0 _ hbm hm s hs
  rw [hconst, simInitState_lump cfg _ v hbm hsl, List.headI_cons]

/-- Witness for C10: in the lump-sum pay-monthly configuration the first
step's loan balance is month-0 collateral times 20%. -/
theorem c10_lump_sum_loan_frame_witness :
    c10Config.borrowMonthly = false ∧
    c10Config.startingLtvPercent = some 20 ∧
    c10Config.interestMode = .pay_monthly ∧
    ((runBBDSimulation c10Config fitB0 startB [] 0).steps.headI.loanBalance
      = ((runBBDSimulation c10Config fitB0 startB [] 0).steps).headI.collateralValue
          * (20 / 100)) := by
  have hne : (runBBDSimulation c10Config fitB0 startB [] 0).steps ≠ [] := by
    rw [runBBDSimulation_steps]
    obtain ⟨p0, rest, hp⟩ :=
      List.exists_cons_of_ne_nil (simPricePath_ne_nil c10Config fitB0 startB [] 0)
    rw [hp]
    exact runSteps_ne_nil _ _ _ _ _ 0 _
  obtain ⟨s0, tl, hs⟩ := List.exists_cons_of_ne_nil hne
  have hmem : (runBBDSimulation c10Config fitB0 startB [] 0).steps.headI
      ∈ (runBBDSimulation c10Config fitB0 startB [] 0).steps := by
    rw [hs]
    exact List.mem_cons_self _ _
  exact ⟨rfl, rfl, rfl,
    (c10_lump_sum_loan_frame c10Config fitB0 startB [] 0 20 rfl rfl rfl) _ hmem⟩

/-! ## Claim C4 witness: a run that liquidates at month 0 -/

/-- Witness for C4: with starting LTV 90% against an 80% threshold the run
liquidates at its first step, and the summary records that month. -/
theorem c4_liquidation_halts_witness :
    ((runBBDSimulation c4Config fitB0 startB [] 0).steps.headI.isLiquidated = true) ∧
    ((runBBDSimulation c4Config fitB0 startB [] 0).summary.liquidationMonth
      = some ((runBBDSimulation c4Config fitB0 startB [] 0).steps.headI.month)) := by
  obtain ⟨p0, rest, hp⟩ :=
    List.exists_cons_of_ne_nil (simPricePath_ne_nil c4Config fitB0 startB [] 0)
  have hp0price : p0.price = 100000 := by
    refine simPricePath_fitB0_price c4Config startB 0 rfl p0 ?_
    rw [hp]
    exact List.mem_cons_self _ _
  have hsteps : (runBBDSimulation c4Config fitB0 startB [] 0).steps
      = (runSteps c4Config (c4Config.interestAprPercent / 100 / 12)
          (c4Config.liquidationLtvPercent / 100) (p0 :: rest) 0
          (simInitState c4Config (p0 :: rest))).1 := by
    rw [runBBDSimulation_steps, hp]
  have hhead : (runBBDSimulation c4Config fitB0 startB [] 0).steps.headI
      = (simStep c4Config (c4Config.interestAprPercent / 100 / 12)
          (c4Config.liquidationLtvPercent / 100) 0 p0
          (simInitState c4Config (p0 :: rest))).1 := by
    rw [hsteps, runSteps_headI]
  have hloan : (simStep c4Config (c4Config.interestAprPercent / 100 / 12)
      (c4Config.liquidationLtvPercent / 100) 0 p0
      (simInitState c4Config (p0 :: rest))).1.loanBalance
      = c4Config.btcHeld * p0.price * (90 / 100) := by
    rw [simStep_loan_month0, simInitState_lump c4Config (p0 :: rest) 90 rfl rfl,
      List.headI_cons]
  have hltv : (c4Config.liquidationLtvPercent / 100 : ℝ)
      ≤ (simStep c4Config (c4Config.interestAprPercent / 100 / 12)
          (c4Config.liquidationLtvPercent / 100) 0 p0
          (simInitState c4Config (p0 :: rest))).1.ltv := by
    rw [simStep_fst_ltv, hloan, hp0price]
    norm_num [c4Config]
  have hliq : (runBBDSimulation c4Config fitB0 startB [] 0).steps.headI.isLiquidated
      = true := by
    rw [hhead, simStep_fst_isLiquidated_ite,
      if_pos ⟨hltv, simInitState_isLiquidated c4Config (p0 :: rest)⟩]
  have hmem : (runBBDSimulation c4Config fitB0 startB [] 0).steps.headI
      ∈ (runBBDSimulation c4Config fitB0 startB [] 0).steps := by
    rw [hsteps, runSteps_headI]
    rw [runSteps_cons]
    split
    · exact List.mem_singleton.mpr rfl
    · exact List.mem_cons_self _ _
  exact ⟨hliq, (c4_liquidation_halts c4Config fitB0 startB [] 0).2.2.2 _ hmem hliq⟩

/-! ## Claim C3: no fail-fast validation exists -/

/-- Claim C3 (amended): `runBBDSimulation` performs no input validation and
never fails: every configuration, including one that requests both
starting-LTV and borrow-cadence modes or a negative holding, produces a
nonempty step sequence; when borrowing is enabled the starting-LTV field is
silently ignored (steps and summary agree with the run whose starting LTV is
cleared) rather than rejected. -/
theorem c3_no_failfast (cfg : BBDSimulatorConfig) (fit : PowerLawFit) (startDate : ℤ)
    (hist : List HistoricalPricePoint) (today : ℤ) :
    0 < ((runBBDSimulation cfg fit startDate hist today).steps).length ∧
    (cfg.borrowMonthly = true →
      (runBBDSimulation cfg fit startDate hist today).steps
        = (runBBDSimulation { cfg with startingLtvPercent := none }
            fit startDate hist today).steps ∧
      (runBBDSimulation cfg fit startDate hist today).summary
        = (runBBDSimulation { cfg with startingLtvPercent := none }
            fit startDate hist today).summary) := by
  constructor
  · rw [runBBDSimulation_steps]
    obtain ⟨p0, rest, hp⟩ :=
      List.exists_cons_of_ne_nil (simPricePath_ne_nil cfg fit startDate hist today)
    rw [hp]
    exact List.length_pos.mpr (runSteps_ne_nil cfg _ _ p0 rest 0 _)
  · intro hb
    have hstate : simInitState { cfg with startingLtvPercent := none }
        (simPricePath cfg fit startDate hist today)
        = simInitState cfg (simPricePath cfg fit startDate hist today) := by
      unfold simInitState
      rw [show ({ cfg with startingLtvPercent := none } :
        BBDSimulatorConfig).borrowMonthly = cfg.borrowMonthly from rfl, hb]
    have hpath : simPricePath { cfg with startingLtvPercent := none } fit startDate hist today
        = simPricePath cfg fit startDate hist today := rfl
    constructor
    · rw [runBBDSimulation_steps, runBBDSimulation_steps, hpath, hstate]
      conv_rhs => rw [runSteps_startingLtv_irrel]
    · rw [runBBDSimulation_summary, runBBDSimulation_summary, hpath, hstate]
      conv_rhs => rw [runSteps_startingLtv_irrel]

/-- Counterexample for C3: for a configuration that requests both modes at
once and holds a negative quantity, the claim demands a fail-fast error, but
`runBBDSimulation` returns an ordinary full-horizon result (here one step for
a 0-year horizon). -/
theorem c3_counterexample :
    ((runBBDSimulation c3Config fitB0 startB [] 0).steps).length = 1 := by
  have hlen : (simPricePath c3Config fitB0 startB [] 0).length = 1 := by
    rw [simPricePath_nil, generatePricePath_length]
    norm_num [c3Config]
  obtain ⟨p0, hp⟩ := List.length_eq_one.mp hlen
  rw [runBBDSimulation_steps, hp, runSteps_cons]
  split <;> rfl

/-- Witness for C3's theorem at the invalid configuration: the run is
nonempty and agrees with the run whose starting LTV is cleared. -/
theorem c3_no_failfast_witness :
    0 < ((runBBDSimulation c3Config fitB0 startB [] 0).steps).length ∧
    c3Config.borrowMonthly = true ∧
    (runBBDSimulation c3Config fitB0 startB [] 0).steps
      = (runBBDSimulation { c3Config with startingLtvPercent := none }
          fitB0 startB [] 0).steps := by
  obtain ⟨h1, h2⟩ := c3_no_failfast c3Config fitB0 startB [] 0
  exact ⟨h1, rfl, (h2 rfl).1⟩

/-! ## Claim C1: the month 0/1/2 loan balances of the spec's configuration -/

/-- A borrow-monthly, capitalize step adds the monthly spending and then one
month of interest on the whole balance. -/
lemma simStep_loan_monthly_cap (cfg : BBDSimulatorConfig) (r l : ℝ) (i : ℕ)
    (p : PathPoint) (st : SimLoopState) (hb : cfg.borrowMonthly = true)
    (hf : cfg.borrowFrequency = .monthly) (hm : cfg.interestMode = .capitalize)
    (hi : 0 < i) :
    (simStep cfg r l i p st).1.loanBalance
      = (st.loanBalance + cfg.monthlySpendingUsd)
        + (st.loanBalance + cfg.monthlySpendingUsd) * r := by
  rw [simStep_fst_loanBalance, borrowStep_pos_monthly _ _ _ _ hb hf hi,
    interestStep_pos_cap _ _ _ _ _ hm hi]

/-- General evaluation of months 0..2 of the C1 configuration, for any fit
and price data, as long as the run is at least 3 steps long (that is, as long
as it has not liquidated before month 2). -/
lemma c1_balances_aux (fit : PowerLawFit) (startDate : ℤ)
    (hist : List HistoricalPricePoint) (today : ℤ)
    (h3 : 3 ≤ ((runBBDSimulation c1Config fit startDate hist today).steps).length) :
    (((runBBDSimulation c1Config fit startDate hist today).steps).get? 0).map
        BBDMonthlyStep.loanBalance = some 0 ∧
    (((runBBDSimulation c1Config fit startDate hist today).steps).get? 1).map
        BBDMonthlyStep.loanBalance = some (5000 * (1 + 10 / 100 / 12)) ∧
    (((runBBDSimulation c1Config fit startDate hist today).steps).get? 2).map
        BBDMonthlyStep.loanBalance
      = some ((5000 * (1 + 10 / 100 / 12) + 5000) * (1 + 10 / 100 / 12)) := by
  rw [runBBDSimulation_steps] at h3 ⊢
  have hple : 3 ≤ (simPricePath c1Config fit startDate hist today).length :=
    le_trans h3 (runSteps_length_le _ _ _ _ 0 _)
  rcases hP : simPricePath c1Config fit startDate hist today
    with _ | ⟨p0, _ | ⟨p1, _ | ⟨p2, rest⟩⟩⟩
  · rw [hP] at hple
    simp at hple
  · rw [hP] at hple
    simp at hple
  · rw [hP] at hple
    simp at hple
  rw [hP] at h3
  have hst0liq := simInitState_isLiquidated c1Config (p0 :: p1 :: p2 :: rest)
  have hst0loan : (simInitState c1Config (p0 :: p1 :: p2 :: rest)).loanBalance = 0 :=
    simInitState_loan_zero _ _ rfl
  have h0 : (simStep c1Config (c1Config.interestAprPercent / 100 / 12)
      (c1Config.liquidationLtvPercent / 100) 0 p0
      (simInitState c1Config (p0 :: p1 :: p2 :: rest))).2.isLiquidated = false :=
    month0_no_liq _ _ _ _ _ hst0liq hst0loan (by norm_num [c1Config])
  have hst1loan : (simStep c1Config (c1Config.interestAprPercent / 100 / 12)
      (c1Config.liquidationLtvPercent / 100) 0 p0
      (simInitState c1Config (p0 :: p1 :: p2 :: rest))).2.loanBalance = 0 := by
    rw [simStep_snd_loanBalance, simStep_loan_month0, hst0loan]
  have hs1val : (simStep c1Config (c1Config.interestAprPercent / 100 / 12)
      (c1Config.liquidationLtvPercent / 100) (0 + 1) p1
      (simStep c1Config (c1Config.interestAprPercent / 100 / 12)
        (c1Config.liquidationLtvPercent / 100) 0 p0
        (simInitState c1Config (p0 :: p1 :: p2 :: rest))).2).1.loanBalance
      = 5000 * (1 + 10 / 100 / 12) := by
    rw [simStep_loan_monthly_cap _ _ _ _ _ _ rfl rfl rfl (by norm_num), hst1loan]
    norm_num [c1Config]
  by_cases hbrk : (simStep c1Config (c1Config.interestAprPercent / 100 / 12)
      (c1Config.liquidationLtvPercent / 100) (0 + 1) p1
      (simStep c1Config (c1Config.interestAprPercent / 100 / 12)
        (c1Config.liquidationLtvPercent / 100) 0 p0
        (simInitState c1Config (p0 :: p1 :: p2 :: rest))).2).2.isLiquidated = true
  · exfalso
    rw [runSteps_cons_no_break _ _ _ _ _ 0 _ h0, runSteps_cons, if_pos hbrk] at h3
    simp at h3
  · have h1 : (simStep c1Config (c1Config.interestAprPercent / 100 / 12)
        (c1Config.liquidationLtvPercent / 100) (0 + 1) p1
        (simStep c1Config (c1Config.interestAprPercent / 100 / 12)
          (c1Config.liquidationLtvPercent / 100) 0 p0
          (simInitState c1Config (p0 :: p1 :: p2 :: rest))).2).2.isLiquidated = false :=
      Bool.eq_false_iff.mpr hbrk
    refine ⟨?_, ?_, ?_⟩
    · rw [runSteps_get?_zero, Option.map_some', Option.some_inj, simStep_loan_month0,
        hst0loan]
    · rw [runSteps_get?_one _ _ _ _ _ _ 0 _ h0, Option.map_some', Option.some_inj, hs1val]
    · rw [runSteps_get?_two _ _ _ _ _ _ _ 0 _ h0 h1, Option.map_some', Option.some_inj]
      have hst2loan : (simStep c1Config (c1Config.interestAprPercent / 100 / 12)
          (c1Config.liquidationLtvPercent / 100) (0 + 1) p1
          (simStep c1Config (c1Config.interestAprPercent / 100 / 12)
            (c1Config.liquidationLtvPercent / 100) 0 p0
            (simInitState c1Config (p0 :: p1 :: p2 :: rest))).2).2.loanBalance
          = 5000 * (1 + 10 / 100 / 12) := by
        rw [simStep_snd_loanBalance, hs1val]
      rw [simStep_loan_monthly_cap _ _ _ _ _ _ rfl rfl rfl (by norm_num), hst2loan]
      norm_num [c1Config]

/-- Concretely, with the flat 100000 fit, the C1 run reaches month 2 without
liquidating. -/
lemma c1_concrete_len :
    3 ≤ ((runBBDSimulation c1Config fitB0 startB [] 0).steps).length := by
  have hlen13 : (simPricePath c1Config fitB0 startB [] 0).length = 13 := by
    rw [simPricePath_nil, generatePricePath_length]
    norm_num [c1Config]
  rcases hP : simPricePath c1Config fitB0 startB [] 0
    with _ | ⟨p0, _ | ⟨p1, _ | ⟨p2, rest⟩⟩⟩
  · rw [hP] at hlen13
    simp at hlen13
  · rw [hP] at hlen13
    simp at hlen13
  · rw [hP] at hlen13
    simp at hlen13
  rw [runBBDSimulation_steps, hP]
  have hst0liq := simInitState_isLiquidated c1Config (p0 :: p1 :: p2 :: rest)
  have hst0loan : (simInitState c1Config (p0 :: p1 :: p2 :: rest)).loanBalance = 0 :=
    simInitState_loan_zero _ _ rfl
  have h0 : (simStep c1Config (c1Config.interestAprPercent / 100 / 12)
      (c1Config.liquidationLtvPercent / 100) 0 p0
      (simInitState c1Config (p0 :: p1 :: p2 :: rest))).2.isLiquidated = false :=
    month0_no_liq _ _ _ _ _ hst0liq hst0loan (by norm_num [c1Config])
  have hst1loan : (simStep c1Config (c1Config.interestAprPercent / 100 / 12)
      (c1Config.liquidationLtvPercent / 100) 0 p0
      (simInitState c1Config (p0 :: p1 :: p2 :: rest))).2.loanBalance = 0 := by
    rw [simStep_snd_loanBalance, simStep_loan_month0, hst0loan]
  have hp1price : p1.price = 100000 := by
    refine simPricePath_fitB0_price c1Config startB 0 rfl p1 ?_
    rw [hP]
    exact List.mem_cons_of_mem _ (List.mem_cons_self _ _)
  have hs1val : (simStep c1Config (c1Config.interestAprPercent / 100 / 12)
      (c1Config.liquidationLtvPercent / 100) (0 + 1) p1
      (simStep c1Config (c1Config.interestAprPercent / 100 / 12)
        (c1Config.liquidationLtvPercent / 100) 0 p0
        (simInitState c1Config (p0 :: p1 :: p2 :: rest))).2).1.loanBalance
      = 5000 * (1 + 10 / 100 / 12) := by
    rw [simStep_loan_monthly_cap _ _ _ _ _ _ rfl rfl rfl (by norm_num), hst1loan]
    norm_num [c1Config]
  have h1 : (simStep c1Config (c1Config.interestAprPercent / 100 / 12)
      (c1Config.liquidationLtvPercent / 100) (0 + 1) p1
      (simStep c1Config (c1Config.interestAprPercent / 100 / 12)
        (c1Config.liquidationLtvPercent / 100) 0 p0
        (simInitState c1Config (p0 :: p1 :: p2 :: rest))).2).2.isLiquidated = false := by
    apply simStep_snd_isLiquidated_false _ _ _ _ _ _ h0
    rw [simStep_fst_ltv, hs1val, hp1price]
    norm_num [c1Config]
  rw [runSteps_cons_no_break _ _ _ _ _ 0 _ h0,
    runSteps_cons_no_break _ _ _ _ _ (0 + 1) _ h1]
  simp only [List.length_cons]
  have hpos : 0 < ((runSteps c1Config (c1Config.interestAprPercent / 100 / 12)
      (c1Config.liquidationLtvPercent / 100) (p2 :: rest) (0 + 1 + 1)
      (simStep c1Config (c1Config.interestAprPercent / 100 / 12)
        (c1Config.liquidationLtvPercent / 100) (0 + 1) p1
        (simStep c1Config (c1Config.interestAprPercent / 100 / 12)
          (c1Config.liquidationLtvPercent / 100) 0 p0
          (simInitState c1Config (p0 :: p1 :: p2 :: rest))).2).2).1).length :=
    List.length_pos.mpr (runSteps_ne_nil _ _ _ _ _ _ _)
  omega

/-- Counterexample for C1: in the claimed configuration the month-1 loan
balance is 5000·(1 + 0.10/12) ≈ 5041.67 — the month's borrow accrues one
month of capitalized interest within the same iteration — not exactly 5000. -/
theorem c1_counterexample :
    (((runBBDSimulation c1Config fitB0 startB [] 0).steps).get? 1).map
        BBDMonthlyStep.loanBalance = some (5000 * (1 + 10 / 100 / 12)) ∧
    (5000 * (1 + 10 / 100 / 12) : ℝ) ≠ 5000 := by
  exact ⟨(c1_balances_aux fitB0 startB [] 0 c1_concrete_len).2.1, by norm_num⟩

/-- Claim C1 (amended): for the configuration {btcHeld = 1, spending 5000/mo,
10% APR, 80% liquidation LTV, borrow monthly, capitalize}, whenever the run
reaches month 2 (at least 3 steps), the month-0 loan balance is 0, the
month-1 balance is exactly 5000·(1 + 0.10/12), and the month-2 balance is
(5000·(1 + 0.10/12) + 5000)·(1 + 0.10/12), which exceeds 10000. -/
theorem c1_month_balances (fit : PowerLawFit) (startDate : ℤ)
    (hist : List HistoricalPricePoint) (today : ℤ)
    (h3 : 3 ≤ ((runBBDSimulation c1Config fit startDate hist today).steps).length) :
    (((runBBDSimulation c1Config fit startDate hist today).steps).get? 0).map
        BBDMonthlyStep.loanBalance = some 0 ∧
    (((runBBDSimulation c1Config fit startDate hist today).steps).get? 1).map
        BBDMonthlyStep.loanBalance = some (5000 * (1 + 10 / 100 / 12)) ∧
    (((runBBDSimulation c1Config fit startDate hist today).steps).get? 2).map
        BBDMonthlyStep.loanBalance
      = some ((5000 * (1 + 10 / 100 / 12) + 5000) * (1 + 10 / 100 / 12)) ∧
    (10000 : ℝ) < (5000 * (1 + 10 / 100 / 12) + 5000) * (1 + 10 / 100 / 12) := by
  obtain ⟨a, b, c⟩ := c1_balances_aux fit startDate hist today h3
  exact ⟨a, b, c, by norm_num⟩

/-- Witness for C1's theorem: the flat-fit run reaches month 2, and the
month-0 and month-1 balances are as stated. -/
theorem c1_month_balances_witness :
    3 ≤ ((runBBDSimulation c1Config fitB0 startB [] 0).steps).length ∧
    (((runBBDSimulation c1Config fitB0 startB [] 0).steps).get? 0).map
        BBDMonthlyStep.loanBalance = some 0 ∧
    (((runBBDSimulation c1Config fitB0 startB [] 0).steps).get? 1).map
        BBDMonthlyStep.loanBalance = some (5000 * (1 + 10 / 100 / 12)) := by
  exact ⟨c1_concrete_len, (c1_month_balances fitB0 startB [] 0 c1_concrete_len).1,
    (c1_month_balances fitB0 startB [] 0 c1_concrete_len).2.1⟩

/-! ## Claim C7 counterexample: the wall clock is an input -/

/-- Counterexample for C7: with the same config, fit, start date and
historical price list, running "on" 2025-02-10 stitches the historical price
42 into month 0, while running "on" 2024-12-25 projects 100000 from the
model instead — the results differ, so the core's output depends on the wall
clock, not only on the listed inputs. -/
theorem c7_counterexample :
    runBBDSimulation c7Config fitB0 startB c7Hist c7Today1
      ≠ runBBDSimulation c7Config fitB0 startB c7Hist c7Today2 := by
  have hmg : histMapGet c7Hist (histKey startB) = some 42 := by
    simp [histMapGet, c7Hist, List.filter_cons, List.filter_nil]
  have hp1 : simPricePath c7Config fitB0 startB c7Hist c7Today1
      = [{ date := startB, price := 42, isProjection := false }] := by
    show generateMixedPricePath startB c7Config.projectionYears fitB0 c7Config.scenario
      c7Hist c7Today1 = _
    unfold generateMixedPricePath
    rw [show c7Config.projectionYears = 0 from rfl]
    simp only [Nat.zero_mul, Nat.zero_add, show List.range 1 = [0] from rfl,
      List.map_cons, List.map_nil, Nat.cast_zero, add_zero]
    rw [show dateUTC (yearOfDate startB) (monthIndexOfDate startB) = startB from by decide,
      hmg]
    show [if startB ≤ dateUTC (yearOfDate c7Today1) (monthIndexOfDate c7Today1) then
        ({ date := startB, price := 42, isProjection := false } : PathPoint)
      else { date := startB, price := getScenarioPrice startB fitB0 c7Config.scenario,
              isProjection := true }] = _
    rw [if_pos (show startB ≤ dateUTC (yearOfDate c7Today1) (monthIndexOfDate c7Today1)
      from by decide)]
  have hp2 : simPricePath c7Config fitB0 startB c7Hist c7Today2
      = [{ date := startB, price := getScenarioPrice startB fitB0 .fair,
            isProjection := true }] := by
    show generateMixedPricePath startB c7Config.projectionYears fitB0 c7Config.scenario
      c7Hist c7Today2 = _
    unfold generateMixedPricePath
    rw [show c7Config.projectionYears = 0 from rfl]
    simp only [Nat.zero_mul, Nat.zero_add, show List.range 1 = [0] from rfl,
      List.map_cons, List.map_nil, Nat.cast_zero, add_zero]
    rw [show dateUTC (yearOfDate startB) (monthIndexOfDate startB) = startB from by decide,
      hmg]
    show [if startB ≤ dateUTC (yearOfDate c7Today2) (monthIndexOfDate c7Today2) then
        ({ date := startB, price := 42, isProjection := false } : PathPoint)
      else { date := startB, price := getScenarioPrice startB fitB0 c7Config.scenario,
              isProjection := true }] = _
    rw [if_neg (show ¬ startB ≤ dateUTC (yearOfDate c7Today2) (monthIndexOfDate c7Today2)
      from by decide)]
    rfl
  have e1 : (runBBDSimulation c7Config fitB0 startB c7Hist c7Today1).steps.headI.btcPrice
      = 42 := by
    rw [runBBDSimulation_steps, hp1, runSteps_headI, simStep_fst_btcPrice]
  have e2 : (runBBDSimulation c7Config fitB0 startB c7Hist c7Today2).steps.headI.btcPrice
      = 100000 := by
    rw [runBBDSimulation_steps, hp2, runSteps_headI, simStep_fst_btcPrice]
    exact getScenarioPrice_fitB0 startB
  intro h
  rw [h] at e1
  have h42 : (42 : ℝ) = 100000 := e1.symm.trans e2
  norm_num at h42

end BtcDash
